import Mathlib

/-!
Shallow embedding of the NVSentinel janitor RebootNode reconciler
(src/janitor/pkg/controller/rebootnode_controller.go) together with the
RebootNode status helpers from the api package.  Go `time.Duration` values
are modelled as `Int` nanoseconds; Kubernetes timestamps (`metav1.Time`)
are modelled as `Int`.  The `int32` status counters are modelled as `Int`
(no claim touches 32-bit wraparound).  A Go runtime panic (out-of-range
slice index) is modelled by `Option`: `none` is the panic.
-/

namespace NVSentinel

/-- Nanoseconds in a second (Go `time.Second`). -/
def second : Int := 1000000000

/-- Nanoseconds in a minute (Go `time.Minute`). -/
def minute : Int := 60 * second

/-- `metav1.ConditionStatus`: True / False / Unknown. -/
inductive ConditionStatus
  | isTrue
  | isFalse
  | unknown
deriving DecidableEq, Repr

/-- `metav1.Condition` restricted to the fields the controller uses. -/
structure Condition where
  condType : String
  status : ConditionStatus
  reason : String
  message : String
  lastTransitionTime : Int
deriving DecidableEq, Repr

/-- The RebootNode status sub-object (spec §6 record schema). -/
structure RebootNodeStatus where
  conditions : List Condition := []
  startTime : Option Int := none
  completionTime : Option Int := none
  retryCount : Int := 0
  consecutiveFailures : Int := 0
deriving DecidableEq, Repr

/-- A RebootNode object: spec.nodeName, object metadata the controller
reads (deletion timestamp, finalizer list), and the status sub-object. -/
structure RebootNode where
  nodeName : String
  deletionTimestamp : Option Int := none
  finalizers : List String := []
  status : RebootNodeStatus := {}
deriving DecidableEq, Repr

/-- Modelled from the spec: the api-package file defining the condition
type constants is not in the sources; spec §6 lists the three condition
types `SignalSent`, `NodeReady`, `ManualMode`. -/
def RebootNodeConditionSignalSent : String := "SignalSent"

/-- Modelled from the spec: condition type for node readiness (§6). -/
def RebootNodeConditionNodeReady : String := "NodeReady"

/-- Modelled from the spec: condition type for manual mode (§6). -/
def ManualModeConditionType : String := "ManualMode"

/-- Finalizer string from the controller. -/
def RebootNodeFinalizer : String := "janitor.dgxc.nvidia.com/rebootnode-finalizer"

/-- `MaxRebootRetries` constant from the controller. -/
def MaxRebootRetries : Int := 20

/-- `CSPOperationTimeout` constant from the controller (2 minutes). -/
def CSPOperationTimeout : Int := 2 * minute

/-- Go slice indexing: `some l[i]` when `0 ≤ i < l.length`, `none`
(runtime panic) otherwise. -/
def goIndex (l : List Int) (i : Int) : Option Int :=
  if h : 0 ≤ i ∧ i.toNat < l.length then some (l.get ⟨i.toNat, h.2⟩) else none

/-- The backoff table from `getNextRequeueDelay`. -/
def requeueDelays : List Int := [30 * second, 1 * minute, 2 * minute, 5 * minute]

/-- `getNextRequeueDelay` from the controller: index the delays table by
the consecutive-failure count, capped at the last entry for an index at
or past the end.  A negative index panics in Go (`none` here). -/
def getNextRequeueDelay (consecutiveFailures : Int) : Option Int :=
  let idx : Int := consecutiveFailures
  if idx ≥ (requeueDelays.length : Int) then
    goIndex requeueDelays ((requeueDelays.length : Int) - 1)
  else
    goIndex requeueDelays idx

/-- True when some condition of the given type has status True. -/
def hasTrueCondition (conds : List Condition) (t : String) : Bool :=
  conds.any fun c => c.condType = t && c.status = ConditionStatus.isTrue

/-- True when some condition of the given type exists (any status). -/
def hasConditionType (conds : List Condition) (t : String) : Bool :=
  conds.any fun c => c.condType = t

/-- Modelled from the spec: `RebootNode.SetCondition` lives in the api
package file absent from the sources.  Spec §3: upsert semantics —
setting a condition of an existing type replaces it in place; a new type
is appended.  Behaviour matches the api package's unit tests. -/
def setCondition (c : Condition) (conds : List Condition) : List Condition :=
  if hasConditionType conds c.condType then
    conds.map fun x => if x.condType = c.condType then c else x
  else
    conds ++ [c]

/-- An initial Unknown condition of the given type; its reason and
message are not observable in any claim. -/
def initialCondition (t : String) (now : Int) : Condition :=
  { condType := t, status := ConditionStatus.unknown, reason := "Pending",
    message := "", lastTransitionTime := now }

/-- Append the given condition unless one of its type is present. -/
def addIfMissing (c : Condition) (conds : List Condition) : List Condition :=
  if hasConditionType conds c.condType then conds else conds ++ [c]

/-- Modelled from the spec: `RebootNode.SetInitialConditions` is absent
from the sources.  It initialises the `SignalSent` and `NodeReady`
conditions with status Unknown when not already present (presence is
checked per type; existing conditions are untouched), per the
controller's comment and the api package's unit tests. -/
def setInitialConditions (now : Int) (conds : List Condition) : List Condition :=
  addIfMissing (initialCondition RebootNodeConditionNodeReady now)
    (addIfMissing (initialCondition RebootNodeConditionSignalSent now) conds)

/-- Modelled from the spec: `RebootNode.SetStartTime` is absent from the
sources.  Spec §3: `StartTime` is set exactly once, the first time
reconciliation begins work; never overwritten (api unit tests agree). -/
def setStartTime (now : Int) (st : RebootNodeStatus) : RebootNodeStatus :=
  if st.startTime.isSome then st else { st with startTime := some now }

/-- Modelled from the spec: `RebootNode.SetCompletionTime` is absent from
the sources.  Spec §3: `CompletionTime` is set exactly once, when the
record reaches a terminal outcome. -/
def setCompletionTime (now : Int) (st : RebootNodeStatus) : RebootNodeStatus :=
  if st.completionTime.isSome then st else { st with completionTime := some now }

/-- Modelled from the spec: `RebootNode.IsRebootInProgress` is absent
from the sources.  Per the api package's unit tests: the reboot is in
progress when `SignalSent` is True and `NodeReady` is not True. -/
def isRebootInProgress (conds : List Condition) : Bool :=
  hasTrueCondition conds RebootNodeConditionSignalSent &&
    !hasTrueCondition conds RebootNodeConditionNodeReady

/-- Controller configuration (`config.RebootNodeControllerConfig` fields
the controller reads): manual mode flag and overall reboot timeout. -/
structure Config where
  manualMode : Bool
  timeout : Int := 0
deriving DecidableEq, Repr

/-- `getRebootTimeout`: configured timeout, or the 30-minute default when
unset (0). -/
def getRebootTimeout (cfg : Config) : Int :=
  if cfg.timeout = 0 then 30 * minute else cfg.timeout

/-- Errors returned by the CSP actuator, distinguishing
`context.DeadlineExceeded` (matched via `errors.Is`) from any other
error. -/
inductive CSPErr
  | deadlineExceeded
  | other (msg : String)
deriving DecidableEq, Repr

/-- A Kubernetes node condition (`corev1.NodeCondition`), restricted to
the fields the controller reads. -/
structure NodeCondition where
  condType : String
  status : ConditionStatus
deriving DecidableEq, Repr

/-- A Kubernetes node: name and status conditions. -/
structure NodeInfo where
  name : String
  conditions : List NodeCondition
deriving DecidableEq, Repr

/-- The `corev1.NodeReady` condition type string. -/
def NodeReadyType : String := "Ready"

/-- The controller's loop over node conditions: the `Ready` condition's
status, last occurrence winning, `false` when absent. -/
def kubernetesReady (conds : List NodeCondition) : Bool :=
  conds.foldl
    (fun acc c =>
      if c.condType = NodeReadyType then c.status = ConditionStatus.isTrue else acc)
    false

/-- The environment of one reconciliation pass: the node as fetched from
the API server (`none` = not found), the responses the CSP actuator
would give to `IsNodeReady` and `SendRebootSignal`, and the wall clock
(`metav1.Now`). -/
structure Env where
  node : Option NodeInfo
  isNodeReadyResp : Bool × Option CSPErr
  sendRebootResp : String × Option CSPErr
  now : Int
deriving DecidableEq, Repr

/-- Metric side effects (`metrics.GlobalMetrics`). -/
inductive MetricEvent
  | actionCount (actionType status node : String)
  | actionMTTR (actionType : String) (elapsed : Int)
deriving DecidableEq, Repr

/-- `metrics.ActionTypeReboot`. -/
def ActionTypeReboot : String := "reboot"

/-- `metrics.StatusStarted`. -/
def StatusStarted : String := "started"

/-- `metrics.StatusSucceeded`. -/
def StatusSucceeded : String := "succeeded"

/-- `metrics.StatusFailed`. -/
def StatusFailed : String := "failed"

/-- `ctrl.Result`: `requeueAfter = 0` is Go's zero value `ctrl.Result{}`
(no requeue). -/
structure CtrlResult where
  requeueAfter : Int := 0
deriving DecidableEq, Repr

/-- Result of one reconciliation pass: the record as persisted in the
store afterwards, the returned `ctrl.Result`, whether a status write was
issued, and the metric events emitted. -/
structure Outcome where
  record : RebootNode
  result : CtrlResult
  statusWritten : Bool
  metrics : List MetricEvent
deriving DecidableEq, Repr

/-- The `Error()` text of a modelled CSP error. -/
def CSPErr.errorString : CSPErr → String
  | CSPErr.deadlineExceeded => "context deadline exceeded"
  | CSPErr.other msg => msg

/-- First condition of the given type, if any (the observable the claims
inspect; condition types are unique by the spec §3 invariant). -/
def findCondition (conds : List Condition) (t : String) : Option Condition :=
  conds.find? fun c => c.condType = t

/-- `updateRebootNodeStatus`: write the status iff it differs from the
original snapshot (`reflect.DeepEqual`), refresh-then-write assumed to
succeed with no concurrent edits; returns the given result. -/
def updateRebootNodeStatus (original : RebootNodeStatus) (rn : RebootNode)
    (result : CtrlResult) (ms : List MetricEvent) : Outcome :=
  if rn.status = original then
    { record := rn, result := result, statusWritten := false, metrics := ms }
  else
    { record := rn, result := result, statusWritten := true, metrics := ms }

/-- `controllerutil.AddFinalizer` guarded by `ContainsFinalizer`, as in
the reconciler's finalizer-add step. -/
def addFinalizer (rn : RebootNode) : RebootNode :=
  if rn.finalizers.contains RebootNodeFinalizer then rn
  else { rn with finalizers := rn.finalizers ++ [RebootNodeFinalizer] }

/-- The max-retries branch of `Reconcile`: set completion time, record
`NodeReady=False` with reason `MaxRetriesExceeded`, emit a failure
metric, do not requeue.  The inlined status update in this branch has
the same write-iff-different semantics as `updateRebootNodeStatus`. -/
def maxRetriesStep (cfg : Config) (env : Env)
    (original : RebootNodeStatus) (rn : RebootNode) : Outcome :=
  let cond : Condition :=
    { condType := RebootNodeConditionNodeReady, status := ConditionStatus.isFalse,
      reason := "MaxRetriesExceeded",
      message := "Node failed to reach ready state after " ++ toString MaxRebootRetries
        ++ " retries over " ++ toString (getRebootTimeout cfg),
      lastTransitionTime := env.now }
  let st := setCompletionTime env.now rn.status
  let st := { st with conditions := setCondition cond st.conditions }
  updateRebootNodeStatus original { rn with status := st } {}
    [MetricEvent.actionCount ActionTypeReboot StatusFailed rn.nodeName]

/-- The tail of the monitoring branch after the deadline-exceeded check:
the error / success / overall-timeout / still-waiting chain.  `StartTime`
is always set at this point (`setStartTime` ran), so the default passed
to `Option.getD` is never read. -/
def monitorEvaluate (cfg : Config) (env : Env) (node : NodeInfo)
    (original : RebootNodeStatus) (rn : RebootNode)
    (cspReady : Bool) (errOpt : Option CSPErr) : Option Outcome :=
  let kubeReady := kubernetesReady node.conditions
  errOpt.elim
    (if cspReady && kubeReady then
      let cond : Condition :=
        { condType := RebootNodeConditionNodeReady, status := ConditionStatus.isTrue,
          reason := "Succeeded",
          message := "Node reached ready state post-reboot",
          lastTransitionTime := env.now }
      let st := { rn.status with consecutiveFailures := 0 }
      let st := setCompletionTime env.now st
      let st := { st with conditions := setCondition cond st.conditions }
      some (updateRebootNodeStatus original { rn with status := st } {}
        [MetricEvent.actionCount ActionTypeReboot StatusSucceeded node.name,
         MetricEvent.actionMTTR ActionTypeReboot (env.now - (rn.status.startTime.getD env.now))])
    else if env.now - (rn.status.startTime.getD env.now) > getRebootTimeout cfg then
      let cond : Condition :=
        { condType := RebootNodeConditionNodeReady, status := ConditionStatus.isFalse,
          reason := "Timeout",
          message := "Node failed to return to ready state after timeout duration",
          lastTransitionTime := env.now }
      let st := setCompletionTime env.now rn.status
      let st := { st with conditions := setCondition cond st.conditions }
      some (updateRebootNodeStatus original { rn with status := st } {}
        [MetricEvent.actionCount ActionTypeReboot StatusFailed node.name])
    else
      (getNextRequeueDelay rn.status.consecutiveFailures).map fun d =>
        updateRebootNodeStatus original rn { requeueAfter := d } [])
    (fun e =>
      let cond : Condition :=
        { condType := RebootNodeConditionNodeReady, status := ConditionStatus.isFalse,
          reason := "Failed",
          message := "Node status could not be checked from CSP: " ++ e.errorString,
          lastTransitionTime := env.now }
      let st := { rn.status with consecutiveFailures := rn.status.consecutiveFailures + 1 }
      let st := setCompletionTime env.now st
      let st := { st with conditions := setCondition cond st.conditions }
      some (updateRebootNodeStatus original { rn with status := st } {}
        [MetricEvent.actionCount ActionTypeReboot StatusFailed node.name]))

/-- Branch A of `Reconcile` (reboot in progress): increment `RetryCount`;
in manual mode treat the CSP as ready without calling it, otherwise use
the `IsNodeReady` response, returning early on deadline-exceeded with an
incremented failure count and a backoff requeue. -/
def monitorStep (cfg : Config) (env : Env) (node : NodeInfo)
    (original : RebootNodeStatus) (rn : RebootNode) : Option Outcome :=
  let rn : RebootNode :=
    { rn with status := { rn.status with retryCount := rn.status.retryCount + 1 } }
  if cfg.manualMode then
    monitorEvaluate cfg env node original rn true none
  else
    let cspReady := env.isNodeReadyResp.1
    let errOpt := env.isNodeReadyResp.2
    if errOpt = some CSPErr.deadlineExceeded then
      let rn : RebootNode :=
        { rn with status := { rn.status with
            consecutiveFailures := rn.status.consecutiveFailures + 1 } }
      (getNextRequeueDelay rn.status.consecutiveFailures).map fun d =>
        updateRebootNodeStatus original rn { requeueAfter := d } []
    else
      monitorEvaluate cfg env node original rn cspReady errOpt

/-- The manual-mode arm of branch B: set the `ManualMode` condition and
emit a started metric only when the condition is not yet present; never
requeue. -/
def manualStep (env : Env) (node : NodeInfo)
    (original : RebootNodeStatus) (rn : RebootNode) : Outcome :=
  if hasConditionType rn.status.conditions ManualModeConditionType then
    updateRebootNodeStatus original rn {} []
  else
    let cond : Condition :=
      { condType := ManualModeConditionType, status := ConditionStatus.isTrue,
        reason := "OutsideActorRequired",
        message := "Janitor is in manual mode, outside actor required to send reboot signal",
        lastTransitionTime := env.now }
    let st := { rn.status with conditions := setCondition cond rn.status.conditions }
    updateRebootNodeStatus original { rn with status := st } {}
      [MetricEvent.actionCount ActionTypeReboot StatusStarted node.name]

/-- The automatic-mode arm of branch B: emit a started metric, send the
reboot signal; deadline-exceeded returns early with backoff, success
records `SignalSent=True` (message = actuator reference) and a fixed
30-second requeue, any other error is terminal. -/
def signalStep (env : Env) (node : NodeInfo)
    (original : RebootNodeStatus) (rn : RebootNode) : Option Outcome :=
  let started := MetricEvent.actionCount ActionTypeReboot StatusStarted node.name
  let reqRef := env.sendRebootResp.1
  let rebootErr := env.sendRebootResp.2
  if rebootErr = some CSPErr.deadlineExceeded then
    let rn : RebootNode :=
      { rn with status := { rn.status with
          consecutiveFailures := rn.status.consecutiveFailures + 1 } }
    (getNextRequeueDelay rn.status.consecutiveFailures).map fun d =>
      updateRebootNodeStatus original rn { requeueAfter := d } [started]
  else
    rebootErr.elim
      (let cond : Condition :=
        { condType := RebootNodeConditionSignalSent, status := ConditionStatus.isTrue,
          reason := "Succeeded", message := reqRef,
          lastTransitionTime := env.now }
       let st := { rn.status with consecutiveFailures := 0 }
       let st := { st with conditions := setCondition cond st.conditions }
       some (updateRebootNodeStatus original { rn with status := st }
         { requeueAfter := 30 * second } [started]))
      (fun e =>
        let cond : Condition :=
          { condType := RebootNodeConditionSignalSent, status := ConditionStatus.isFalse,
            reason := "Failed", message := e.errorString,
            lastTransitionTime := env.now }
        let st := { rn.status with consecutiveFailures := rn.status.consecutiveFailures + 1 }
        let st := setCompletionTime env.now st
        let st := { st with conditions := setCondition cond st.conditions }
        some (updateRebootNodeStatus original { rn with status := st } {}
          [started, MetricEvent.actionCount ActionTypeReboot StatusFailed node.name]))

/-- The in-memory mutations `Reconcile` applies before branching:
`SetInitialConditions` then `SetStartTime`. -/
def prepare (now : Int) (rn : RebootNode) : RebootNode :=
  let st := { rn.status with conditions := setInitialConditions now rn.status.conditions }
  { rn with status := setStartTime now st }

/-- One pass of `RebootNodeReconciler.Reconcile` on an existing record,
with API-server reads and writes assumed to succeed (single writer, no
concurrent edits).  `none` models a Go runtime panic. -/
def reconcile (cfg : Config) (env : Env) (rn : RebootNode) : Option Outcome :=
  if rn.deletionTimestamp.isSome then
    let rn :=
      if rn.finalizers.contains RebootNodeFinalizer then
        { rn with finalizers := rn.finalizers.filter fun f => f != RebootNodeFinalizer }
      else rn
    some { record := rn, result := {}, statusWritten := false, metrics := [] }
  else
    let rn := addFinalizer rn
    if rn.status.completionTime.isSome then
      some { record := rn, result := {}, statusWritten := false, metrics := [] }
    else
      let original := rn.status
      let rn : RebootNode := prepare env.now rn
      if rn.status.retryCount ≥ MaxRebootRetries then
        some (maxRetriesStep cfg env original rn)
      else
        env.node.elim
          (some { record := { rn with status := original }, result := {},
                  statusWritten := false, metrics := [] })
          (fun node =>
            if isRebootInProgress rn.status.conditions then
              monitorStep cfg env node original rn
            else if hasTrueCondition rn.status.conditions RebootNodeConditionSignalSent then
              (getNextRequeueDelay rn.status.consecutiveFailures).map fun d =>
                updateRebootNodeStatus original rn { requeueAfter := d } []
            else if cfg.manualMode then
              some (manualStep env node original rn)
            else
              signalStep env node original rn)


/-! Concrete fixtures used by witnesses and counterexamples. -/

/-- A node whose cluster `Ready` condition is True. -/
def nodeReady : NodeInfo :=
  { name := "node-1",
    conditions := [{ condType := NodeReadyType, status := ConditionStatus.isTrue }] }

/-- Automatic-mode configuration with the default timeout. -/
def cfgAuto : Config := { manualMode := false }

/-- Manual-mode configuration. -/
def cfgManual : Config := { manualMode := true }

/-- Environment where both actuator calls exceed their deadline. -/
def envDeadline : Env :=
  { node := some nodeReady,
    isNodeReadyResp := (false, some CSPErr.deadlineExceeded),
    sendRebootResp := ("csp-ref-1", some CSPErr.deadlineExceeded),
    now := 1000 }

/-- Environment where both actuator calls succeed. -/
def envOk : Env :=
  { node := some nodeReady,
    isNodeReadyResp := (true, none),
    sendRebootResp := ("csp-ref-1", none),
    now := 1000 }

/-- Environment where monitoring reports not-ready without error. -/
def envWaiting : Env :=
  { node := some nodeReady,
    isNodeReadyResp := (false, none),
    sendRebootResp := ("csp-ref-1", none),
    now := 1000 }

/-- A fresh record: only the node name populated. -/
def rnFresh : RebootNode := { nodeName := "node-1" }

/-- Status of a record whose reboot signal was sent and whose node is not
yet ready (monitoring in progress). -/
def monitoringStatus : RebootNodeStatus :=
  { conditions :=
      [{ condType := RebootNodeConditionSignalSent, status := ConditionStatus.isTrue,
         reason := "Succeeded", message := "csp-ref-1", lastTransitionTime := 0 },
       { condType := RebootNodeConditionNodeReady, status := ConditionStatus.unknown,
         reason := "Pending", message := "", lastTransitionTime := 0 }],
    startTime := some 0 }

/-- A record in the monitoring branch. -/
def rnMonitoring : RebootNode := { nodeName := "node-1", status := monitoringStatus }

/-- A terminal record: completion time already set. -/
def rnCompleted : RebootNode :=
  { nodeName := "node-1", status := { completionTime := some 50 } }

/-- A record that exhausted its retries. -/
def rnMaxed : RebootNode :=
  { nodeName := "node-1", status := { retryCount := 20 } }

/-- The outcome of reconciling `rnMaxed` once (a terminal max-retries
pass), used to exercise the second-pass idempotence theorem. -/
def c6first : Outcome :=
  maxRetriesStep cfgAuto envOk rnMaxed.status (prepare envOk.now (addFinalizer rnMaxed))

/-! Helper lemmas about the embedded operations. -/

@[simp] lemma addFinalizer_status (rn : RebootNode) :
    (addFinalizer rn).status = rn.status := by
  unfold addFinalizer; split <;> rfl

@[simp] lemma addFinalizer_nodeName (rn : RebootNode) :
    (addFinalizer rn).nodeName = rn.nodeName := by
  unfold addFinalizer; split <;> rfl

@[simp] lemma addFinalizer_deletionTimestamp (rn : RebootNode) :
    (addFinalizer rn).deletionTimestamp = rn.deletionTimestamp := by
  unfold addFinalizer; split <;> rfl

lemma addFinalizer_contains (rn : RebootNode) :
    (addFinalizer rn).finalizers.contains RebootNodeFinalizer = true := by
  unfold addFinalizer
  split
  case isTrue h => exact h
  case isFalse h => simp

lemma addFinalizer_of_contains (rn : RebootNode)
    (h : rn.finalizers.contains RebootNodeFinalizer = true) :
    addFinalizer rn = rn := by
  unfold addFinalizer; rw [if_pos h]

@[simp] lemma setStartTime_conditions (now : Int) (st : RebootNodeStatus) :
    (setStartTime now st).conditions = st.conditions := by
  unfold setStartTime; split <;> rfl

@[simp] lemma setStartTime_retryCount (now : Int) (st : RebootNodeStatus) :
    (setStartTime now st).retryCount = st.retryCount := by
  unfold setStartTime; split <;> rfl

@[simp] lemma setStartTime_consecutiveFailures (now : Int) (st : RebootNodeStatus) :
    (setStartTime now st).consecutiveFailures = st.consecutiveFailures := by
  unfold setStartTime; split <;> rfl

@[simp] lemma setStartTime_completionTime (now : Int) (st : RebootNodeStatus) :
    (setStartTime now st).completionTime = st.completionTime := by
  unfold setStartTime; split <;> rfl

lemma setStartTime_of_isSome (now : Int) (st : RebootNodeStatus)
    (h : st.startTime.isSome = true) : setStartTime now st = st := by
  unfold setStartTime; rw [if_pos h]

@[simp] lemma setCompletionTime_conditions (now : Int) (st : RebootNodeStatus) :
    (setCompletionTime now st).conditions = st.conditions := by
  unfold setCompletionTime; split <;> rfl

@[simp] lemma setCompletionTime_retryCount (now : Int) (st : RebootNodeStatus) :
    (setCompletionTime now st).retryCount = st.retryCount := by
  unfold setCompletionTime; split <;> rfl

@[simp] lemma setCompletionTime_consecutiveFailures (now : Int) (st : RebootNodeStatus) :
    (setCompletionTime now st).consecutiveFailures = st.consecutiveFailures := by
  unfold setCompletionTime; split <;> rfl

lemma setCompletionTime_of_none (now : Int) (st : RebootNodeStatus)
    (h : st.completionTime = none) :
    setCompletionTime now st = { st with completionTime := some now } := by
  unfold setCompletionTime; rw [h]; simp

@[simp] lemma prepare_nodeName (now : Int) (rn : RebootNode) :
    (prepare now rn).nodeName = rn.nodeName := rfl

@[simp] lemma prepare_deletionTimestamp (now : Int) (rn : RebootNode) :
    (prepare now rn).deletionTimestamp = rn.deletionTimestamp := rfl

@[simp] lemma prepare_finalizers (now : Int) (rn : RebootNode) :
    (prepare now rn).finalizers = rn.finalizers := rfl

@[simp] lemma prepare_retryCount (now : Int) (rn : RebootNode) :
    (prepare now rn).status.retryCount = rn.status.retryCount := by
  unfold prepare; simp

@[simp] lemma prepare_consecutiveFailures (now : Int) (rn : RebootNode) :
    (prepare now rn).status.consecutiveFailures = rn.status.consecutiveFailures := by
  unfold prepare; simp

@[simp] lemma prepare_completionTime (now : Int) (rn : RebootNode) :
    (prepare now rn).status.completionTime = rn.status.completionTime := by
  unfold prepare; simp

@[simp] lemma prepare_conditions (now : Int) (rn : RebootNode) :
    (prepare now rn).status.conditions = setInitialConditions now rn.status.conditions := by
  unfold prepare; simp

lemma hasTrueCondition_addIfMissing (c : Condition) (conds : List Condition)
    (t : String) (hc : c.status ≠ ConditionStatus.isTrue) :
    hasTrueCondition (addIfMissing c conds) t = hasTrueCondition conds t := by
  unfold addIfMissing
  split
  · rfl
  · simp [hasTrueCondition, List.any_append, hc]

lemma hasTrueCondition_setInitialConditions (now : Int) (conds : List Condition)
    (t : String) :
    hasTrueCondition (setInitialConditions now conds) t = hasTrueCondition conds t := by
  unfold setInitialConditions
  rw [hasTrueCondition_addIfMissing, hasTrueCondition_addIfMissing] <;>
    simp [initialCondition]

lemma isRebootInProgress_setInitialConditions (now : Int) (conds : List Condition) :
    isRebootInProgress (setInitialConditions now conds) = isRebootInProgress conds := by
  unfold isRebootInProgress
  rw [hasTrueCondition_setInitialConditions, hasTrueCondition_setInitialConditions]

lemma hasConditionType_addIfMissing_ne (c : Condition) (conds : List Condition)
    (t : String) (hc : c.condType ≠ t) :
    hasConditionType (addIfMissing c conds) t = hasConditionType conds t := by
  unfold addIfMissing
  split
  · rfl
  · simp [hasConditionType, List.any_append, hc]

lemma hasConditionType_setInitialConditions_manual (now : Int)
    (conds : List Condition) :
    hasConditionType (setInitialConditions now conds) ManualModeConditionType
      = hasConditionType conds ManualModeConditionType := by
  unfold setInitialConditions
  rw [hasConditionType_addIfMissing_ne, hasConditionType_addIfMissing_ne] <;>
    simp [initialCondition, RebootNodeConditionSignalSent,
      RebootNodeConditionNodeReady, ManualModeConditionType]

lemma hasConditionType_addIfMissing_self (c : Condition) (conds : List Condition) :
    hasConditionType (addIfMissing c conds) c.condType = true := by
  unfold addIfMissing
  split
  case isTrue h => exact h
  case isFalse h => simp [hasConditionType, List.any_append]

lemma hasConditionType_addIfMissing_mono (c : Condition) (conds : List Condition)
    (t : String) (h : hasConditionType conds t = true) :
    hasConditionType (addIfMissing c conds) t = true := by
  unfold addIfMissing
  split
  · exact h
  · simp [hasConditionType, List.any_append] at h ⊢
    exact Or.inl h

lemma hasConditionType_setInitialConditions_signal (now : Int)
    (conds : List Condition) :
    hasConditionType (setInitialConditions now conds) RebootNodeConditionSignalSent
      = true := by
  unfold setInitialConditions
  exact hasConditionType_addIfMissing_mono _ _ _
    (hasConditionType_addIfMissing_self (initialCondition RebootNodeConditionSignalSent now) conds)

lemma hasConditionType_setInitialConditions_nodeReady (now : Int)
    (conds : List Condition) :
    hasConditionType (setInitialConditions now conds) RebootNodeConditionNodeReady
      = true := by
  unfold setInitialConditions
  exact hasConditionType_addIfMissing_self
    (initialCondition RebootNodeConditionNodeReady now) _

@[simp] lemma initialCondition_condType (t : String) (now : Int) :
    (initialCondition t now).condType = t := rfl

@[simp] lemma initialCondition_status (t : String) (now : Int) :
    (initialCondition t now).status = ConditionStatus.unknown := rfl

lemma setInitialConditions_of_present (now : Int) (conds : List Condition)
    (h1 : hasConditionType conds RebootNodeConditionSignalSent = true)
    (h2 : hasConditionType conds RebootNodeConditionNodeReady = true) :
    setInitialConditions now conds = conds := by
  unfold setInitialConditions addIfMissing
  simp [h1, h2]

lemma find?_map_upsert (c : Condition) (conds : List Condition)
    (h : hasConditionType conds c.condType = true) :
    ((conds.map fun x => if x.condType = c.condType then c else x).find?
      fun x => x.condType = c.condType) = some c := by
  induction conds with
  | nil => simp [hasConditionType] at h
  | cons a rest ih =>
    by_cases ha : a.condType = c.condType
    · simp [List.find?, ha]
    · have h' : hasConditionType rest c.condType = true := by
        simp [hasConditionType, ha] at h
        simpa [hasConditionType] using h
      simp [List.find?, ha, ih h']

lemma find?_append_new (c : Condition) (conds : List Condition)
    (h : hasConditionType conds c.condType = false) :
    ((conds ++ [c]).find? fun x => x.condType = c.condType) = some c := by
  induction conds with
  | nil => simp
  | cons a rest ih =>
    have ha : ¬ a.condType = c.condType := by
      intro hh
      simp [hasConditionType, hh] at h
    have h' : hasConditionType rest c.condType = false := by
      simp [hasConditionType] at h ⊢
      intro x hx
      exact h.2 x hx
    simp [List.find?, ha, ih h']

lemma findCondition_setCondition (c : Condition) (conds : List Condition) :
    findCondition (setCondition c conds) c.condType = some c := by
  unfold findCondition setCondition
  by_cases h : hasConditionType conds c.condType = true
  · rw [if_pos h]
    exact find?_map_upsert c conds h
  · rw [if_neg h]
    exact find?_append_new c conds (by simpa using h)

lemma any_upsert_of_pred_false (p : Condition → Bool) (c : Condition)
    (conds : List Condition) (hpc : p c = false)
    (hstable : ∀ x, x.condType = c.condType → p x = false) :
    ((conds.map fun x => if x.condType = c.condType then c else x).any p)
      = conds.any p := by
  induction conds with
  | nil => rfl
  | cons a rest ih =>
    simp only [List.map_cons, List.any_cons, ih]
    by_cases ha : a.condType = c.condType
    · rw [if_pos ha, hpc, hstable a ha]
    · rw [if_neg ha]

lemma hasTrueCondition_setCondition_ne (c : Condition) (conds : List Condition)
    (t : String) (h : c.condType ≠ t) :
    hasTrueCondition (setCondition c conds) t = hasTrueCondition conds t := by
  unfold setCondition
  split
  · exact any_upsert_of_pred_false _ c conds (by simp [h])
      (fun x hx => by simp [hx, h])
  · simp [hasTrueCondition, List.any_append, h]

lemma hasConditionType_setCondition_ne (c : Condition) (conds : List Condition)
    (t : String) (h : c.condType ≠ t) :
    hasConditionType (setCondition c conds) t = hasConditionType conds t := by
  unfold setCondition
  split
  · exact any_upsert_of_pred_false _ c conds (by simp [h])
      (fun x hx => by simp [hx, h])
  · simp [hasConditionType, List.any_append, h]

lemma hasConditionType_setCondition_self (c : Condition) (conds : List Condition) :
    hasConditionType (setCondition c conds) c.condType = true := by
  unfold setCondition
  split
  case isTrue hyp =>
    rw [hasConditionType, List.any_eq_true]
    rw [hasConditionType, List.any_eq_true] at hyp
    obtain ⟨x, hx, hxt⟩ := hyp
    refine ⟨if x.condType = c.condType then c else x, List.mem_map_of_mem _ hx, ?_⟩
    simp at hxt
    simp [hxt]
  case isFalse hyp => simp [hasConditionType, List.any_append]

lemma reconcile_of_completed (cfg : Config) (env : Env) (rn : RebootNode)
    (hdel : rn.deletionTimestamp = none)
    (hct : rn.status.completionTime.isSome = true) :
    reconcile cfg env rn =
      some { record := addFinalizer rn, result := {},
             statusWritten := false, metrics := [] } := by
  unfold reconcile
  simp [hdel, hct]

lemma reconcile_nonterminal (cfg : Config) (env : Env) (rn : RebootNode)
    (hdel : rn.deletionTimestamp = none)
    (hct : rn.status.completionTime = none)
    (hretry : rn.status.retryCount < MaxRebootRetries) :
    reconcile cfg env rn =
      env.node.elim
        (some { record := { prepare env.now (addFinalizer rn) with status := rn.status },
                result := {}, statusWritten := false, metrics := [] })
        (fun node =>
          if isRebootInProgress rn.status.conditions then
            monitorStep cfg env node rn.status (prepare env.now (addFinalizer rn))
          else if hasTrueCondition rn.status.conditions RebootNodeConditionSignalSent then
            (getNextRequeueDelay rn.status.consecutiveFailures).map fun d =>
              updateRebootNodeStatus rn.status (prepare env.now (addFinalizer rn))
                { requeueAfter := d } []
          else if cfg.manualMode then
            some (manualStep env node rn.status (prepare env.now (addFinalizer rn)))
          else
            signalStep env node rn.status (prepare env.now (addFinalizer rn))) := by
  unfold reconcile
  simp [hdel, hct, not_le.mpr hretry, isRebootInProgress_setInitialConditions,
    hasTrueCondition_setInitialConditions]

lemma reconcile_maxRetries (cfg : Config) (env : Env) (rn : RebootNode)
    (hdel : rn.deletionTimestamp = none)
    (hct : rn.status.completionTime = none)
    (hretry : MaxRebootRetries ≤ rn.status.retryCount) :
    reconcile cfg env rn =
      some (maxRetriesStep cfg env rn.status (prepare env.now (addFinalizer rn))) := by
  unfold reconcile
  simp [hdel, hct, hretry]

@[simp] lemma updateRebootNodeStatus_record (original : RebootNodeStatus)
    (rn : RebootNode) (result : CtrlResult) (ms : List MetricEvent) :
    (updateRebootNodeStatus original rn result ms).record = rn := by
  unfold updateRebootNodeStatus; split <;> rfl

@[simp] lemma updateRebootNodeStatus_result (original : RebootNodeStatus)
    (rn : RebootNode) (result : CtrlResult) (ms : List MetricEvent) :
    (updateRebootNodeStatus original rn result ms).result = result := by
  unfold updateRebootNodeStatus; split <;> rfl

@[simp] lemma updateRebootNodeStatus_metrics (original : RebootNodeStatus)
    (rn : RebootNode) (result : CtrlResult) (ms : List MetricEvent) :
    (updateRebootNodeStatus original rn result ms).metrics = ms := by
  unfold updateRebootNodeStatus; split <;> rfl

lemma updateRebootNodeStatus_written_of_ne (original : RebootNodeStatus)
    (rn : RebootNode) (result : CtrlResult) (ms : List MetricEvent)
    (h : rn.status ≠ original) :
    (updateRebootNodeStatus original rn result ms).statusWritten = true := by
  unfold updateRebootNodeStatus; rw [if_neg h]

lemma updateRebootNodeStatus_written_of_eq (original : RebootNodeStatus)
    (rn : RebootNode) (result : CtrlResult) (ms : List MetricEvent)
    (h : rn.status = original) :
    (updateRebootNodeStatus original rn result ms).statusWritten = false := by
  unfold updateRebootNodeStatus; rw [if_pos h]

lemma monitorStep_deadlineExceeded (cfg : Config) (env : Env) (node : NodeInfo)
    (original : RebootNodeStatus) (rnp : RebootNode)
    (hmanual : cfg.manualMode = false)
    (hDE : env.isNodeReadyResp.2 = some CSPErr.deadlineExceeded)
    (d : Int)
    (hd : getNextRequeueDelay (rnp.status.consecutiveFailures + 1) = some d) :
    monitorStep cfg env node original rnp =
      some (updateRebootNodeStatus original
        { rnp with status := { rnp.status with
            retryCount := rnp.status.retryCount + 1,
            consecutiveFailures := rnp.status.consecutiveFailures + 1 } }
        { requeueAfter := d } []) := by
  unfold monitorStep
  simp [hmanual, hDE, hd]

lemma signalStep_deadlineExceeded (env : Env) (node : NodeInfo)
    (original : RebootNodeStatus) (rnp : RebootNode)
    (hDE : env.sendRebootResp.2 = some CSPErr.deadlineExceeded)
    (d : Int)
    (hd : getNextRequeueDelay (rnp.status.consecutiveFailures + 1) = some d) :
    signalStep env node original rnp =
      some (updateRebootNodeStatus original
        { rnp with status := { rnp.status with
            consecutiveFailures := rnp.status.consecutiveFailures + 1 } }
        { requeueAfter := d }
        [MetricEvent.actionCount ActionTypeReboot StatusStarted node.name]) := by
  unfold signalStep
  simp [hDE, hd]

lemma signalStep_success (env : Env) (node : NodeInfo)
    (original : RebootNodeStatus) (rnp : RebootNode) (ref : String)
    (hresp : env.sendRebootResp = (ref, none)) :
    signalStep env node original rnp =
      some (updateRebootNodeStatus original
        { rnp with status := { rnp.status with
            consecutiveFailures := 0,
            conditions := setCondition
              { condType := RebootNodeConditionSignalSent,
                status := ConditionStatus.isTrue, reason := "Succeeded",
                message := ref, lastTransitionTime := env.now }
              rnp.status.conditions } }
        { requeueAfter := 30 * second }
        [MetricEvent.actionCount ActionTypeReboot StatusStarted node.name]) := by
  unfold signalStep
  simp [hresp]

lemma signalStep_otherError (env : Env) (node : NodeInfo)
    (original : RebootNodeStatus) (rnp : RebootNode) (ref : String) (msg : String)
    (hresp : env.sendRebootResp = (ref, some (CSPErr.other msg)))
    (hcpl : rnp.status.completionTime = none) :
    signalStep env node original rnp =
      some (updateRebootNodeStatus original
        { rnp with status := { rnp.status with
            consecutiveFailures := rnp.status.consecutiveFailures + 1,
            completionTime := some env.now,
            conditions := setCondition
              { condType := RebootNodeConditionSignalSent,
                status := ConditionStatus.isFalse, reason := "Failed",
                message := msg, lastTransitionTime := env.now }
              rnp.status.conditions } }
        {}
        [MetricEvent.actionCount ActionTypeReboot StatusStarted node.name,
         MetricEvent.actionCount ActionTypeReboot StatusFailed node.name]) := by
  unfold signalStep
  simp [hresp, setCompletionTime, hcpl, CSPErr.errorString]

lemma monitorStep_error (cfg : Config) (env : Env) (node : NodeInfo)
    (original : RebootNodeStatus) (rnp : RebootNode)
    (hmanual : cfg.manualMode = false) (msg : String)
    (hresp : env.isNodeReadyResp.2 = some (CSPErr.other msg))
    (hcpl : rnp.status.completionTime = none) :
    monitorStep cfg env node original rnp =
      some (updateRebootNodeStatus original
        { rnp with status := { rnp.status with
            retryCount := rnp.status.retryCount + 1,
            consecutiveFailures := rnp.status.consecutiveFailures + 1,
            completionTime := some env.now,
            conditions := setCondition
              { condType := RebootNodeConditionNodeReady,
                status := ConditionStatus.isFalse, reason := "Failed",
                message := "Node status could not be checked from CSP: " ++ msg,
                lastTransitionTime := env.now }
              rnp.status.conditions } }
        {}
        [MetricEvent.actionCount ActionTypeReboot StatusFailed node.name]) := by
  unfold monitorStep monitorEvaluate
  simp [hmanual, hresp, setCompletionTime, hcpl, CSPErr.errorString]

lemma monitorStep_success (cfg : Config) (env : Env) (node : NodeInfo)
    (original : RebootNodeStatus) (rnp : RebootNode)
    (hmanual : cfg.manualMode = false)
    (hresp : env.isNodeReadyResp = (true, none))
    (hkube : kubernetesReady node.conditions = true)
    (hcpl : rnp.status.completionTime = none) :
    monitorStep cfg env node original rnp =
      some (updateRebootNodeStatus original
        { rnp with status := { rnp.status with
            retryCount := rnp.status.retryCount + 1,
            consecutiveFailures := 0,
            completionTime := some env.now,
            conditions := setCondition
              { condType := RebootNodeConditionNodeReady,
                status := ConditionStatus.isTrue, reason := "Succeeded",
                message := "Node reached ready state post-reboot",
                lastTransitionTime := env.now }
              rnp.status.conditions } }
        {}
        [MetricEvent.actionCount ActionTypeReboot StatusSucceeded node.name,
         MetricEvent.actionMTTR ActionTypeReboot
           (env.now - (rnp.status.startTime.getD env.now))]) := by
  unfold monitorStep monitorEvaluate
  simp [hmanual, hresp, hkube, setCompletionTime, hcpl]

lemma monitorStep_success_manual (cfg : Config) (env : Env) (node : NodeInfo)
    (original : RebootNodeStatus) (rnp : RebootNode)
    (hmanual : cfg.manualMode = true)
    (hkube : kubernetesReady node.conditions = true)
    (hcpl : rnp.status.completionTime = none) :
    monitorStep cfg env node original rnp =
      some (updateRebootNodeStatus original
        { rnp with status := { rnp.status with
            retryCount := rnp.status.retryCount + 1,
            consecutiveFailures := 0,
            completionTime := some env.now,
            conditions := setCondition
              { condType := RebootNodeConditionNodeReady,
                status := ConditionStatus.isTrue, reason := "Succeeded",
                message := "Node reached ready state post-reboot",
                lastTransitionTime := env.now }
              rnp.status.conditions } }
        {}
        [MetricEvent.actionCount ActionTypeReboot StatusSucceeded node.name,
         MetricEvent.actionMTTR ActionTypeReboot
           (env.now - (rnp.status.startTime.getD env.now))]) := by
  unfold monitorStep monitorEvaluate
  simp [hmanual, hkube, setCompletionTime, hcpl]

lemma manualStep_present (env : Env) (node : NodeInfo)
    (original : RebootNodeStatus) (rnp : RebootNode)
    (h : hasConditionType rnp.status.conditions ManualModeConditionType = true) :
    manualStep env node original rnp = updateRebootNodeStatus original rnp {} [] := by
  unfold manualStep; rw [if_pos h]

lemma manualStep_absent (env : Env) (node : NodeInfo)
    (original : RebootNodeStatus) (rnp : RebootNode)
    (h : hasConditionType rnp.status.conditions ManualModeConditionType = false) :
    manualStep env node original rnp =
      updateRebootNodeStatus original
        { rnp with status := { rnp.status with
            conditions := setCondition
              { condType := ManualModeConditionType,
                status := ConditionStatus.isTrue, reason := "OutsideActorRequired",
                message := "Janitor is in manual mode, outside actor required to send reboot signal",
                lastTransitionTime := env.now }
              rnp.status.conditions } }
        {}
        [MetricEvent.actionCount ActionTypeReboot StatusStarted node.name] := by
  unfold manualStep
  simp [h]

lemma getNextRequeueDelay_isSome (n : Int) (hn : 0 ≤ n) :
    ∃ d, getNextRequeueDelay n = some d ∧
      (d = 30 * second ∨ d = 1 * minute ∨ d = 2 * minute ∨ d = 5 * minute) := by
  have hlen : (requeueDelays.length : Int) = 4 := by decide
  simp only [getNextRequeueDelay, hlen]
  by_cases h4 : (4 : Int) ≤ n
  · rw [if_pos h4]
    exact ⟨5 * minute, by decide, by decide⟩
  · rw [if_neg h4]
    have hub : n < 4 := by omega
    interval_cases n
    · exact ⟨30 * second, by decide, by decide⟩
    · exact ⟨1 * minute, by decide, by decide⟩
    · exact ⟨2 * minute, by decide, by decide⟩
    · exact ⟨5 * minute, by decide, by decide⟩

lemma getNextRequeueDelay_neg (n : Int) (hn : n < 0) :
    getNextRequeueDelay n = none := by
  have hlen : (requeueDelays.length : Int) = 4 := by decide
  simp only [getNextRequeueDelay, hlen]
  rw [if_neg (by omega)]
  unfold goIndex
  rw [dif_neg]
  rintro ⟨h1, -⟩
  omega

lemma reconcile_monitor_branch (cfg : Config) (env : Env) (rn : RebootNode)
    (node : NodeInfo)
    (hdel : rn.deletionTimestamp = none)
    (hct : rn.status.completionTime = none)
    (hretry : rn.status.retryCount < MaxRebootRetries)
    (hnode : env.node = some node)
    (hprog : isRebootInProgress rn.status.conditions = true) :
    reconcile cfg env rn =
      monitorStep cfg env node rn.status (prepare env.now (addFinalizer rn)) := by
  rw [reconcile_nonterminal cfg env rn hdel hct hretry, hnode]
  simp [hprog]

lemma reconcile_signalAlready_branch (cfg : Config) (env : Env) (rn : RebootNode)
    (node : NodeInfo)
    (hdel : rn.deletionTimestamp = none)
    (hct : rn.status.completionTime = none)
    (hretry : rn.status.retryCount < MaxRebootRetries)
    (hnode : env.node = some node)
    (hprog : isRebootInProgress rn.status.conditions = false)
    (hsig : hasTrueCondition rn.status.conditions RebootNodeConditionSignalSent = true) :
    reconcile cfg env rn =
      (getNextRequeueDelay rn.status.consecutiveFailures).map fun d =>
        updateRebootNodeStatus rn.status (prepare env.now (addFinalizer rn))
          { requeueAfter := d } [] := by
  rw [reconcile_nonterminal cfg env rn hdel hct hretry, hnode]
  simp [hprog, hsig]

lemma reconcile_manual_branch (cfg : Config) (env : Env) (rn : RebootNode)
    (node : NodeInfo)
    (hdel : rn.deletionTimestamp = none)
    (hct : rn.status.completionTime = none)
    (hretry : rn.status.retryCount < MaxRebootRetries)
    (hnode : env.node = some node)
    (hprog : isRebootInProgress rn.status.conditions = false)
    (hsig : hasTrueCondition rn.status.conditions RebootNodeConditionSignalSent = false)
    (hmanual : cfg.manualMode = true) :
    reconcile cfg env rn =
      some (manualStep env node rn.status (prepare env.now (addFinalizer rn))) := by
  rw [reconcile_nonterminal cfg env rn hdel hct hretry, hnode]
  simp [hprog, hsig, hmanual]

lemma reconcile_signal_branch (cfg : Config) (env : Env) (rn : RebootNode)
    (node : NodeInfo)
    (hdel : rn.deletionTimestamp = none)
    (hct : rn.status.completionTime = none)
    (hretry : rn.status.retryCount < MaxRebootRetries)
    (hnode : env.node = some node)
    (hprog : isRebootInProgress rn.status.conditions = false)
    (hsig : hasTrueCondition rn.status.conditions RebootNodeConditionSignalSent = false)
    (hmanual : cfg.manualMode = false) :
    reconcile cfg env rn =
      signalStep env node rn.status (prepare env.now (addFinalizer rn)) := by
  rw [reconcile_nonterminal cfg env rn hdel hct hretry, hnode]
  simp [hprog, hsig, hmanual]

lemma monitorEvaluate_record_deletionTimestamp {cfg : Config} {env : Env}
    {node : NodeInfo} {original : RebootNodeStatus} {rnp : RebootNode}
    {cspReady : Bool} {errOpt : Option CSPErr} {o : Outcome}
    (h : monitorEvaluate cfg env node original rnp cspReady errOpt = some o) :
    o.record.deletionTimestamp = rnp.deletionTimestamp := by
  unfold monitorEvaluate at h
  rcases errOpt with _ | e
  · simp only [Option.elim_none] at h
    split at h
    · cases h
      simp
    · split at h
      · cases h
        simp
      · rcases hg : getNextRequeueDelay rnp.status.consecutiveFailures with _ | d <;>
          rw [hg] at h
        · cases h
        · cases h
          simp
  · simp only [Option.elim_some] at h
    cases h
    simp

lemma monitorStep_record_deletionTimestamp {cfg : Config} {env : Env}
    {node : NodeInfo} {original : RebootNodeStatus} {rnp : RebootNode} {o : Outcome}
    (h : monitorStep cfg env node original rnp = some o) :
    o.record.deletionTimestamp = rnp.deletionTimestamp := by
  simp only [monitorStep] at h
  split at h
  · exact (monitorEvaluate_record_deletionTimestamp h).trans (by simp)
  · split at h
    · rcases hg : getNextRequeueDelay (rnp.status.consecutiveFailures + 1)
        with _ | d <;> simp only [hg] at h
      · cases h
      · rw [Option.map_some'] at h
        cases h
        simp
    · exact (monitorEvaluate_record_deletionTimestamp h).trans (by simp)

lemma signalStep_record_deletionTimestamp {env : Env} {node : NodeInfo}
    {original : RebootNodeStatus} {rnp : RebootNode} {o : Outcome}
    (h : signalStep env node original rnp = some o) :
    o.record.deletionTimestamp = rnp.deletionTimestamp := by
  simp only [signalStep] at h
  split at h
  · rcases hg : getNextRequeueDelay (rnp.status.consecutiveFailures + 1)
      with _ | d <;> simp only [hg] at h
    · cases h
    · rw [Option.map_some'] at h
      cases h
      simp
  · rcases he : env.sendRebootResp.2 with _ | e <;> rw [he] at h
    · simp only [Option.elim_none] at h
      cases h
      simp
    · simp only [Option.elim_some] at h
      cases h
      simp

lemma manualStep_record_deletionTimestamp {env : Env} {node : NodeInfo}
    {original : RebootNodeStatus} {rnp : RebootNode} :
    (manualStep env node original rnp).record.deletionTimestamp
      = rnp.deletionTimestamp := by
  unfold manualStep
  split <;> simp

lemma reconcile_record_deletionTimestamp {cfg : Config} {env : Env}
    {rn : RebootNode} {o : Outcome}
    (hdel : rn.deletionTimestamp = none)
    (h : reconcile cfg env rn = some o) :
    o.record.deletionTimestamp = none := by
  unfold reconcile at h
  rw [hdel] at h
  simp only [Option.isSome_none, Bool.false_eq_true, if_false] at h
  split at h
  · cases h
    simp [hdel]
  · split at h
    · cases h
      simp [maxRetriesStep, hdel]
    · rcases hn : env.node with _ | node <;> rw [hn] at h
      · simp only [Option.elim_none] at h
        cases h
        simp [hdel]
      · simp only [Option.elim_some] at h
        split at h
        · rw [monitorStep_record_deletionTimestamp h]
          simp [hdel]
        · split at h
          · rcases hg : getNextRequeueDelay
                (prepare env.now (addFinalizer rn)).status.consecutiveFailures
              with _ | d <;> simp only [hg] at h
            · cases h
            · rw [Option.map_some'] at h
              cases h
              simp [hdel]
          · split at h
            · cases h
              rw [manualStep_record_deletionTimestamp]
              simp [hdel]
            · rw [signalStep_record_deletionTimestamp h]
              simp [hdel]

lemma setStartTime_isSome (now : Int) (st : RebootNodeStatus) :
    (setStartTime now st).startTime.isSome = true := by
  unfold setStartTime
  split
  case isTrue h => exact h
  case isFalse h => rfl

lemma prepare_of_prepared (now : Int) (rn : RebootNode)
    (h1 : hasConditionType rn.status.conditions RebootNodeConditionSignalSent = true)
    (h2 : hasConditionType rn.status.conditions RebootNodeConditionNodeReady = true)
    (h3 : rn.status.startTime.isSome = true) :
    prepare now rn = rn := by
  simp only [prepare]
  rw [setInitialConditions_of_present now _ h1 h2]
  rw [setStartTime_of_isSome now _ (by simpa using h3)]

lemma record_reset_status (now : Int) (rn : RebootNode) :
    ({ prepare now rn with status := rn.status } : RebootNode) = rn := rfl

/-! Claim theorems. -/

/-- C1: For every RebootNode record whose `Status.CompletionTime` is
already non-nil (and which is not being deleted), a call to `Reconcile`
applies no further state transitions: it returns an empty result with no
error and leaves the record's status sub-object unchanged, performing no
status write (only the finalizer may be added to the object metadata). -/
theorem reconcile_completed_noop (cfg : Config) (env : Env) (rn : RebootNode)
    (hdel : rn.deletionTimestamp = none) (t : Int)
    (hct : rn.status.completionTime = some t) :
    reconcile cfg env rn =
      some { record := addFinalizer rn, result := {}, statusWritten := false,
             metrics := [] } ∧
    (addFinalizer rn).status = rn.status :=
  ⟨reconcile_of_completed cfg env rn hdel (by rw [hct]; rfl),
   addFinalizer_status rn⟩

/-- Witness for C1 at a concrete terminal record. -/
theorem reconcile_completed_noop_witness :
    reconcile cfgAuto envOk rnCompleted =
      some { record := addFinalizer rnCompleted, result := {},
             statusWritten := false, metrics := [] } ∧
    (addFinalizer rnCompleted).status = rnCompleted.status :=
  reconcile_completed_noop cfgAuto envOk rnCompleted rfl 50 rfl

/-- C3: The backoff policy `getNextRequeueDelay` is a pure deterministic
function of the consecutive-failure count satisfying f(0)=30s, f(1)=1m,
f(2)=2m, and f(n)=5m for every n ≥ 3 (capped at the maximum). -/
theorem getNextRequeueDelay_values :
    getNextRequeueDelay 0 = some (30 * second) ∧
    getNextRequeueDelay 1 = some (1 * minute) ∧
    getNextRequeueDelay 2 = some (2 * minute) ∧
    ∀ n : Int, 3 ≤ n → getNextRequeueDelay n = some (5 * minute) := by
  refine ⟨by decide, by decide, by decide, ?_⟩
  intro n hn
  have hlen : (requeueDelays.length : Int) = 4 := by decide
  simp only [getNextRequeueDelay, hlen]
  by_cases h4 : (4 : Int) ≤ n
  · rw [if_pos h4]
    decide
  · have h3 : n = 3 := by omega
    subst h3
    rw [if_neg h4]
    decide

/-- Witness for C3: the capped branch evaluated at n = 5. -/
theorem getNextRequeueDelay_values_witness :
    getNextRequeueDelay 5 = some (5 * minute) :=
  getNextRequeueDelay_values.2.2.2 5 (by decide)

/-- C10: `getNextRequeueDelay` is only safe on non-negative inputs: for
every consecutiveFailures ≥ 0 the array index is in bounds and the
result is one of 30s, 1m, 2m, 5m, but any negative consecutiveFailures
makes the index out of range and the function panics (modelled `none`),
so non-negativity of the counter is a required precondition. -/
theorem getNextRequeueDelay_domain (n : Int) :
    (0 ≤ n → ∃ d, getNextRequeueDelay n = some d ∧
      (d = 30 * second ∨ d = 1 * minute ∨ d = 2 * minute ∨ d = 5 * minute)) ∧
    (n < 0 → getNextRequeueDelay n = none) :=
  ⟨getNextRequeueDelay_isSome n, getNextRequeueDelay_neg n⟩

/-- Witness for C10: the panic case at -1. -/
theorem getNextRequeueDelay_domain_witness :
    getNextRequeueDelay (-1) = none :=
  (getNextRequeueDelay_domain (-1)).2 (by decide)

/-- C2 counterexample: in the monitoring branch with ConsecutiveFailures
= 0, a deadline-exceeded `IsNodeReady` call leaves ConsecutiveFailures =
1 and CompletionTime nil, but the requeue delay is one minute, not the
30 seconds the claim states: the controller computes the delay from the
already-incremented failure count. -/
theorem monitor_first_timeout_counterexample :
    (reconcile cfgAuto envDeadline rnMonitoring).map
        (fun o => (o.record.status.consecutiveFailures, o.result.requeueAfter,
                   o.record.status.completionTime))
      = some (1, 1 * minute, none) ∧ (1 * minute : Int) ≠ 30 * second :=
  ⟨by decide, by decide⟩

/-- C2 (amended): For a record in the monitoring branch with
ConsecutiveFailures = 0 whose first `IsNodeReady` call exceeds the
actuator timeout, `Reconcile` leaves the record with ConsecutiveFailures
= 1, a requeue delay of exactly 1 minute (the backoff entry for the
incremented failure count), and CompletionTime still nil. -/
theorem monitor_first_timeout_amended (cfg : Config) (env : Env)
    (rn : RebootNode) (node : NodeInfo)
    (hdel : rn.deletionTimestamp = none)
    (hct : rn.status.completionTime = none)
    (hretry : rn.status.retryCount < MaxRebootRetries)
    (hnode : env.node = some node)
    (hmanual : cfg.manualMode = false)
    (hprog : isRebootInProgress rn.status.conditions = true)
    (hcf : rn.status.consecutiveFailures = 0)
    (hDE : env.isNodeReadyResp.2 = some CSPErr.deadlineExceeded) :
    ∃ o, reconcile cfg env rn = some o ∧
      o.record.status.consecutiveFailures = 1 ∧
      o.result.requeueAfter = 1 * minute ∧
      o.record.status.completionTime = none := by
  rw [reconcile_monitor_branch cfg env rn node hdel hct hretry hnode hprog,
    monitorStep_deadlineExceeded cfg env node rn.status _ hmanual hDE (1 * minute)
      (by simp [hcf]; decide)]
  exact ⟨_, rfl, by simp [hcf], by simp, by simp [hct]⟩

/-- Witness for the amended C2 at a concrete monitoring record. -/
theorem monitor_first_timeout_amended_witness :
    ∃ o, reconcile cfgAuto envDeadline rnMonitoring = some o ∧
      o.record.status.consecutiveFailures = 1 ∧
      o.result.requeueAfter = 1 * minute ∧
      o.record.status.completionTime = none :=
  monitor_first_timeout_amended cfgAuto envDeadline rnMonitoring nodeReady
    rfl rfl (by decide) rfl rfl (by decide) rfl rfl

/-- C4: For every non-terminal record with RetryCount ≥ MaxRetries (20)
on entry, `Reconcile` transitions it to terminal: CompletionTime is set,
a NodeReady condition with status False and reason MaxRetriesExceeded is
recorded, a failure metric is emitted, no requeue is scheduled, and the
outcome is independent of the node and actuator state (the check
precedes any actuator call). -/
theorem reconcile_maxRetries_terminal (cfg : Config) (env : Env) (rn : RebootNode)
    (hdel : rn.deletionTimestamp = none)
    (hct : rn.status.completionTime = none)
    (hretry : MaxRebootRetries ≤ rn.status.retryCount) :
    ∃ o, reconcile cfg env rn = some o ∧
      o.record.status.completionTime = some env.now ∧
      (findCondition o.record.status.conditions RebootNodeConditionNodeReady).map
          (fun c => (c.status, c.reason))
        = some (ConditionStatus.isFalse, "MaxRetriesExceeded") ∧
      o.result.requeueAfter = 0 ∧
      o.metrics = [MetricEvent.actionCount ActionTypeReboot StatusFailed rn.nodeName] ∧
      o.statusWritten = true ∧
      ∀ env' : Env, env'.now = env.now → reconcile cfg env' rn = reconcile cfg env rn := by
  refine ⟨_, reconcile_maxRetries cfg env rn hdel hct hretry, ?_, ?_, ?_, ?_, ?_, ?_⟩
  · simp [maxRetriesStep, setCompletionTime, hct]
  · simp only [maxRetriesStep, updateRebootNodeStatus_record]
    rw [findCondition_setCondition]
    rfl
  · simp [maxRetriesStep]
  · simp [maxRetriesStep]
  · simp only [maxRetriesStep]
    apply updateRebootNodeStatus_written_of_ne
    intro heq
    have hc := congrArg RebootNodeStatus.completionTime heq
    simp [setCompletionTime, hct] at hc
  · intro env' hnow
    rw [reconcile_maxRetries cfg env' rn hdel hct hretry,
      reconcile_maxRetries cfg env rn hdel hct hretry]
    simp [maxRetriesStep, hnow]

/-- Witness for C4 at a record with RetryCount = 20. -/
theorem reconcile_maxRetries_terminal_witness :
    ∃ o, reconcile cfgAuto envOk rnMaxed = some o ∧
      o.record.status.completionTime = some envOk.now ∧
      (findCondition o.record.status.conditions RebootNodeConditionNodeReady).map
          (fun c => (c.status, c.reason))
        = some (ConditionStatus.isFalse, "MaxRetriesExceeded") ∧
      o.result.requeueAfter = 0 ∧
      o.metrics = [MetricEvent.actionCount ActionTypeReboot StatusFailed rnMaxed.nodeName] ∧
      o.statusWritten = true ∧
      ∀ env' : Env, env'.now = envOk.now →
        reconcile cfgAuto env' rnMaxed = reconcile cfgAuto envOk rnMaxed :=
  reconcile_maxRetries_terminal cfgAuto envOk rnMaxed rfl rfl (by decide)

/-- C5: Whenever an actuator call (`SendRebootSignal` or `IsNodeReady`)
fails with deadline-exceeded, `Reconcile` increments ConsecutiveFailures
by one, schedules a requeue via the backoff policy, and never sets
CompletionTime — the outcome is retryable, never terminal. -/
theorem deadlineExceeded_retryable (cfg : Config) (env : Env)
    (rn : RebootNode) (node : NodeInfo)
    (hdel : rn.deletionTimestamp = none)
    (hct : rn.status.completionTime = none)
    (hretry : rn.status.retryCount < MaxRebootRetries)
    (hnode : env.node = some node)
    (hmanual : cfg.manualMode = false)
    (hcf : 0 ≤ rn.status.consecutiveFailures)
    (hcase :
      (isRebootInProgress rn.status.conditions = true ∧
        env.isNodeReadyResp.2 = some CSPErr.deadlineExceeded) ∨
      (isRebootInProgress rn.status.conditions = false ∧
        hasTrueCondition rn.status.conditions RebootNodeConditionSignalSent = false ∧
        env.sendRebootResp.2 = some CSPErr.deadlineExceeded)) :
    ∃ o, reconcile cfg env rn = some o ∧
      o.record.status.consecutiveFailures = rn.status.consecutiveFailures + 1 ∧
      getNextRequeueDelay (rn.status.consecutiveFailures + 1)
        = some o.result.requeueAfter ∧
      o.record.status.completionTime = none := by
  obtain ⟨d, hd, -⟩ :=
    getNextRequeueDelay_isSome (rn.status.consecutiveFailures + 1) (by omega)
  have hd' : getNextRequeueDelay
      ((prepare env.now (addFinalizer rn)).status.consecutiveFailures + 1)
      = some d := by simpa using hd
  rcases hcase with ⟨hprog, hDE⟩ | ⟨hprog, hsig, hDE⟩
  · rw [reconcile_monitor_branch cfg env rn node hdel hct hretry hnode hprog,
      monitorStep_deadlineExceeded cfg env node rn.status _ hmanual hDE d hd']
    refine ⟨_, rfl, by simp, ?_, by simp [hct]⟩
    simpa using hd
  · rw [reconcile_signal_branch cfg env rn node hdel hct hretry hnode hprog hsig hmanual,
      signalStep_deadlineExceeded env node rn.status _ hDE d hd']
    refine ⟨_, rfl, by simp, ?_, by simp [hct]⟩
    simpa using hd

/-- Witness for C5 at a concrete monitoring record whose IsNodeReady
call times out. -/
theorem deadlineExceeded_retryable_witness :
    ∃ o, reconcile cfgAuto envDeadline rnMonitoring = some o ∧
      o.record.status.consecutiveFailures
        = rnMonitoring.status.consecutiveFailures + 1 ∧
      getNextRequeueDelay (rnMonitoring.status.consecutiveFailures + 1)
        = some o.result.requeueAfter ∧
      o.record.status.completionTime = none :=
  deadlineExceeded_retryable cfgAuto envDeadline rnMonitoring nodeReady
    rfl rfl (by decide) rfl rfl (by decide) (Or.inl ⟨by decide, rfl⟩)

/-- C7: For a record in automatic mode on which the reboot signal has
not yet been sent, when `SendRebootSignal` returns a reference without
error, `Reconcile` resets ConsecutiveFailures to 0, records a SignalSent
condition with status True whose message is the opaque actuator
reference, and schedules a requeue after a fixed 30-second interval. -/
theorem signal_success_monitoring (cfg : Config) (env : Env)
    (rn : RebootNode) (node : NodeInfo) (ref : String)
    (hdel : rn.deletionTimestamp = none)
    (hct : rn.status.completionTime = none)
    (hretry : rn.status.retryCount < MaxRebootRetries)
    (hnode : env.node = some node)
    (hmanual : cfg.manualMode = false)
    (hprog : isRebootInProgress rn.status.conditions = false)
    (hsig : hasTrueCondition rn.status.conditions RebootNodeConditionSignalSent = false)
    (hresp : env.sendRebootResp = (ref, none)) :
    ∃ o, reconcile cfg env rn = some o ∧
      o.record.status.consecutiveFailures = 0 ∧
      (findCondition o.record.status.conditions RebootNodeConditionSignalSent).map
          (fun c => (c.status, c.message)) = some (ConditionStatus.isTrue, ref) ∧
      o.result.requeueAfter = 30 * second := by
  rw [reconcile_signal_branch cfg env rn node hdel hct hretry hnode hprog hsig hmanual,
    signalStep_success env node rn.status _ ref hresp]
  refine ⟨_, rfl, by simp, ?_, by simp⟩
  simp only [updateRebootNodeStatus_record]
  rw [findCondition_setCondition]
  rfl

/-- Witness for C7 at a fresh record whose reboot signal succeeds. -/
theorem signal_success_monitoring_witness :
    ∃ o, reconcile cfgAuto envOk rnFresh = some o ∧
      o.record.status.consecutiveFailures = 0 ∧
      (findCondition o.record.status.conditions RebootNodeConditionSignalSent).map
          (fun c => (c.status, c.message))
        = some (ConditionStatus.isTrue, "csp-ref-1") ∧
      o.result.requeueAfter = 30 * second :=
  signal_success_monitoring cfgAuto envOk rnFresh nodeReady "csp-ref-1"
    rfl rfl (by decide) rfl rfl (by decide) (by decide) rfl

/-- C8: Across reconciliation passes, ConsecutiveFailures is reset to
exactly 0 on every successful step (successful monitoring check —
including manual-mode monitoring, where the CSP is treated as ready
without an actuator call — and successful signal send) and is
incremented by exactly 1 on each failure or actuator-timeout step, in
both the monitoring and the signal-sending branch.  The mode hypotheses
appear only in the conjuncts whose triggering event (an actuator
response) requires automatic mode. -/
theorem consecutiveFailures_updates (cfg : Config) (env : Env)
    (rn : RebootNode) (node : NodeInfo)
    (hdel : rn.deletionTimestamp = none)
    (hct : rn.status.completionTime = none)
    (hretry : rn.status.retryCount < MaxRebootRetries)
    (hnode : env.node = some node)
    (hcf : 0 ≤ rn.status.consecutiveFailures) :
    (∀ e : CSPErr, cfg.manualMode = false →
      isRebootInProgress rn.status.conditions = true →
      env.isNodeReadyResp.2 = some e →
      ∃ o, reconcile cfg env rn = some o ∧
        o.record.status.consecutiveFailures
          = rn.status.consecutiveFailures + 1) ∧
    (isRebootInProgress rn.status.conditions = true →
      (cfg.manualMode = true ∨ env.isNodeReadyResp = (true, none)) →
      kubernetesReady node.conditions = true →
      ∃ o, reconcile cfg env rn = some o ∧
        o.record.status.consecutiveFailures = 0) ∧
    (∀ e : CSPErr, cfg.manualMode = false →
      isRebootInProgress rn.status.conditions = false →
      hasTrueCondition rn.status.conditions RebootNodeConditionSignalSent = false →
      env.sendRebootResp.2 = some e →
      ∃ o, reconcile cfg env rn = some o ∧
        o.record.status.consecutiveFailures
          = rn.status.consecutiveFailures + 1) ∧
    (cfg.manualMode = false →
      isRebootInProgress rn.status.conditions = false →
      hasTrueCondition rn.status.conditions RebootNodeConditionSignalSent = false →
      env.sendRebootResp.2 = none →
      ∃ o, reconcile cfg env rn = some o ∧
        o.record.status.consecutiveFailures = 0) := by
  obtain ⟨d, hd, -⟩ :=
    getNextRequeueDelay_isSome (rn.status.consecutiveFailures + 1) (by omega)
  have hd' : getNextRequeueDelay
      ((prepare env.now (addFinalizer rn)).status.consecutiveFailures + 1)
      = some d := by simpa using hd
  have hcpl : (prepare env.now (addFinalizer rn)).status.completionTime = none := by
    simp [hct]
  refine ⟨?_, ?_, ?_, ?_⟩
  · intro e hmanual hprog hresp
    rcases e with _ | msg
    · rw [reconcile_monitor_branch cfg env rn node hdel hct hretry hnode hprog,
        monitorStep_deadlineExceeded cfg env node rn.status _ hmanual hresp d hd']
      exact ⟨_, rfl, by simp⟩
    · rw [reconcile_monitor_branch cfg env rn node hdel hct hretry hnode hprog,
        monitorStep_error cfg env node rn.status _ hmanual msg hresp hcpl]
      exact ⟨_, rfl, by simp⟩
  · intro hprog hready hkube
    by_cases hm : cfg.manualMode = true
    · rw [reconcile_monitor_branch cfg env rn node hdel hct hretry hnode hprog,
        monitorStep_success_manual cfg env node rn.status _ hm hkube hcpl]
      exact ⟨_, rfl, by simp⟩
    · rw [Bool.not_eq_true] at hm
      rcases hready with hready | hresp
      · exact absurd hready (by simp [hm])
      · rw [reconcile_monitor_branch cfg env rn node hdel hct hretry hnode hprog,
          monitorStep_success cfg env node rn.status _ hm hresp hkube hcpl]
        exact ⟨_, rfl, by simp⟩
  · intro e hmanual hprog hsig hresp
    rcases e with _ | msg
    · rw [reconcile_signal_branch cfg env rn node hdel hct hretry hnode hprog hsig hmanual,
        signalStep_deadlineExceeded env node rn.status _ hresp d hd']
      exact ⟨_, rfl, by simp⟩
    · have hresp' : env.sendRebootResp
          = (env.sendRebootResp.1, some (CSPErr.other msg)) := by
        rw [← hresp]
      rw [reconcile_signal_branch cfg env rn node hdel hct hretry hnode hprog hsig hmanual,
        signalStep_otherError env node rn.status _ env.sendRebootResp.1 msg hresp' hcpl]
      exact ⟨_, rfl, by simp⟩
  · intro hmanual hprog hsig hresp
    have hresp' : env.sendRebootResp = (env.sendRebootResp.1, none) := by
      rw [← hresp]
    rw [reconcile_signal_branch cfg env rn node hdel hct hretry hnode hprog hsig hmanual,
      signalStep_success env node rn.status _ env.sendRebootResp.1 hresp']
    exact ⟨_, rfl, by simp⟩

/-- Witness for C8: the reset-to-zero conjunct at a concrete monitoring
record whose node comes back ready. -/
theorem consecutiveFailures_updates_witness :
    ∃ o, reconcile cfgAuto envOk rnMonitoring = some o ∧
      o.record.status.consecutiveFailures = 0 :=
  (consecutiveFailures_updates cfgAuto envOk rnMonitoring nodeReady
      rfl rfl (by decide) rfl (by decide)).2.1 (by decide) (Or.inr rfl) (by decide)

/-- C6 counterexample: reconciling a monitoring record twice with no
external state change (same environment, same clock) DOES persist a
second write: each monitoring pass increments RetryCount, so the second
pass computes a status that differs from the stored one. -/
theorem reconcile_twice_writes_counterexample :
    ((reconcile cfgAuto envWaiting rnMonitoring).bind
        fun o => reconcile cfgAuto envWaiting o.record).map Outcome.statusWritten
      = some true := by decide

/-- C6 (amended): Invoking `Reconcile` twice in succession produces no
additional persisted write on the second invocation provided the first
invocation reached a terminal outcome (CompletionTime set); for records
left non-terminal in the monitoring branch the second pass increments
RetryCount and persists again. -/
theorem reconcile_idempotent_after_terminal (cfg : Config) (env env' : Env)
    (rn : RebootNode) (o : Outcome) (t : Int)
    (hdel : rn.deletionTimestamp = none)
    (h1 : reconcile cfg env rn = some o)
    (hterm : o.record.status.completionTime = some t) :
    reconcile cfg env' o.record =
      some { record := addFinalizer o.record, result := {},
             statusWritten := false, metrics := [] } ∧
    (addFinalizer o.record).status = o.record.status :=
  ⟨reconcile_of_completed cfg env' o.record
      (reconcile_record_deletionTimestamp hdel h1) (by rw [hterm]; rfl),
   addFinalizer_status o.record⟩

/-- Witness for the amended C6: the record produced by a terminal
max-retries pass is reconciled again without a write. -/
theorem reconcile_idempotent_after_terminal_witness :
    reconcile cfgAuto envOk c6first.record =
      some { record := addFinalizer c6first.record, result := {},
             statusWritten := false, metrics := [] } ∧
    (addFinalizer c6first.record).status = c6first.record.status :=
  reconcile_idempotent_after_terminal cfgAuto envOk envOk rnMaxed c6first 1000
    rfl (by decide) (by decide)

@[simp] lemma prepare_startTime_isSome (now : Int) (rn : RebootNode) :
    (prepare now rn).status.startTime.isSome = true := by
  simp only [prepare]
  exact setStartTime_isSome now _

lemma reconcile_manual_second_pass (cfg : Config) (env' : Env) (X : RebootNode)
    (hmanual : cfg.manualMode = true)
    (hdel : X.deletionTimestamp = none)
    (hct : X.status.completionTime = none)
    (hretry : X.status.retryCount < MaxRebootRetries)
    (hfin : X.finalizers.contains RebootNodeFinalizer = true)
    (hsig : hasTrueCondition X.status.conditions RebootNodeConditionSignalSent = false)
    (h1 : hasConditionType X.status.conditions RebootNodeConditionSignalSent = true)
    (h2 : hasConditionType X.status.conditions RebootNodeConditionNodeReady = true)
    (h3 : X.status.startTime.isSome = true)
    (hmm : hasConditionType X.status.conditions ManualModeConditionType = true) :
    reconcile cfg env' X =
      some { record := X, result := {}, statusWritten := false, metrics := [] } := by
  have haf : addFinalizer X = X := addFinalizer_of_contains X hfin
  have hprep : prepare env'.now X = X := prepare_of_prepared env'.now X h1 h2 h3
  have hprog : isRebootInProgress X.status.conditions = false := by
    simp [isRebootInProgress, hsig]
  rcases hn : env'.node with _ | node'
  · rw [reconcile_nonterminal cfg env' X hdel hct hretry, hn]
    simp only [Option.elim_none]
    rw [haf, hprep]
  · rw [reconcile_manual_branch cfg env' X node' hdel hct hretry hn hprog hsig hmanual,
      haf, hprep, manualStep_present env' node' X.status X hmm]
    simp [updateRebootNodeStatus]

/-- C9: In manual mode, the ManualMode condition is added to a record's
condition list at most once across repeated `Reconcile` invocations of
the same record (presence is checked before adding): the first pass adds
it, and a second pass with the condition already present changes nothing
— same stored record, no status write, no metrics. -/
theorem manualMode_condition_once (cfg : Config) (env env' : Env)
    (rn : RebootNode) (node : NodeInfo)
    (hmanual : cfg.manualMode = true)
    (hdel : rn.deletionTimestamp = none)
    (hct : rn.status.completionTime = none)
    (hretry : rn.status.retryCount < MaxRebootRetries)
    (hnode : env.node = some node)
    (hprog : isRebootInProgress rn.status.conditions = false)
    (hsig : hasTrueCondition rn.status.conditions RebootNodeConditionSignalSent = false)
    (hmm : hasConditionType rn.status.conditions ManualModeConditionType = false) :
    ∃ o, reconcile cfg env rn = some o ∧
      hasConditionType o.record.status.conditions ManualModeConditionType = true ∧
      reconcile cfg env' o.record =
        some { record := o.record, result := {}, statusWritten := false,
               metrics := [] } := by
  have hmm2 : hasConditionType
      (prepare env.now (addFinalizer rn)).status.conditions ManualModeConditionType
      = false := by
    simp [hasConditionType_setInitialConditions_manual, hmm]
  rw [reconcile_manual_branch cfg env rn node hdel hct hretry hnode hprog hsig hmanual,
    manualStep_absent env node rn.status _ hmm2]
  refine ⟨_, rfl, ?_, ?_⟩
  · simp only [updateRebootNodeStatus_record]
    simp only [prepare_conditions, addFinalizer_status]
    exact hasConditionType_setCondition_self _ _
  · simp only [updateRebootNodeStatus_record]
    refine reconcile_manual_second_pass cfg env' _ hmanual (by simp [hdel])
      (by simp [hct]) (by simpa using hretry)
      (by simpa using addFinalizer_contains rn)
      ?_ ?_ ?_ (by simp) ?_
    · simp +decide [hasTrueCondition_setCondition_ne,
        hasTrueCondition_setInitialConditions, hsig]
    · simp +decide [hasConditionType_setCondition_ne,
        hasConditionType_setInitialConditions_signal]
    · simp +decide [hasConditionType_setCondition_ne,
        hasConditionType_setInitialConditions_nodeReady]
    · simp only [RebootNode.status, prepare_conditions, addFinalizer_status]
      exact hasConditionType_setCondition_self _ _

/-- Witness for C9: manual mode on a fresh record, reconciled twice. -/
theorem manualMode_condition_once_witness :
    ∃ o, reconcile cfgManual envOk rnFresh = some o ∧
      hasConditionType o.record.status.conditions ManualModeConditionType = true ∧
      reconcile cfgManual envOk o.record =
        some { record := o.record, result := {}, statusWritten := false,
               metrics := [] } :=
  manualMode_condition_once cfgManual envOk envOk rnFresh nodeReady
    rfl rfl rfl (by decide) rfl (by decide) (by decide) (by decide)

end NVSentinel
